import Mathlib

/-
Verification of the data-quality validation engine in
`scripts/dq_pipeline.py` (repository data-quality-ci-pipeline).

The embedding translates the script's pure validation logic:
  * the six pydantic field validators of `AmazonOrder`
    (`order_id_not_empty`, `qty_non_negative`, `amount_non_negative`,
    `currency_must_be_inr`, `country_must_be_india`, `validate_date_format`),
  * the per-row loop of `validate_with_pydantic` (column lookup of the six
    raw columns, classification into `valid_rows` / `invalid_rows`, and the
    `validation_error` / `row_index` annotations added to invalid rows),
  * the Great Expectations constraint list and success aggregation of
    `validate_with_great_expectations` and `main`.

Modelling conventions:
  * A raw scalar cell is `Value`: `vnull` models the pandas missing value
    `NaN` (pandas stores missing cells of every dtype as the float `NaN`;
    a Python `None` never survives as a dataframe cell), `vstr` a string
    cell and `vnum` an exact finite numeric cell (modelled as a rational).
  * The script imports pydantic v2 (`field_validator` does not exist in
    v1), and `@field_validator` without a `mode` argument runs in
    `mode='after'`: pydantic first validates the raw cell against the
    field's type annotation (`str`, `int`, `float`, lax mode) and only
    then calls the decorated validator on the coerced value.  Each field
    is therefore embedded as a two-stage pipeline `pyd*Field`: the lax
    type validation (`pydStr`, `pydInt`, `pydFloat`), then the validator
    body on the coerced value.  Consequently the `pd.isna`/`str(v)`
    branches of the validator bodies that presuppose a raw `NaN` input
    are dead code in the program and are not part of the embedded
    bodies; the bodies act on the post-coercion values.  pydantic
    validates every field and aggregates all failures into one
    `ValidationError`; `rowOutcome` collects the per-field errors in
    declaration order and renders them with the error-count header of
    `str(ValidationError)` (the per-error `[type=..., input_value=...]`
    metadata is omitted from the rendering; no claim inspects the
    aggregated text — the only error text a claim depends on is the
    pre-pydantic `KeyError` raised while building `row_data`).
  * Python `str.strip()` is `pyStrip`; Python `float(...)` string
    parsing is `parsePyFloat` for the finite decimal-literal fragment
    (optional sign, fraction, exponent) and `parsePyFloatX` for the full
    domain including the `inf`/`infinity`/`nan` words; float values are
    `PyFloat` (finite rational, infinities, or `NaN`).
  * `datetime.strptime` for the nine fixed formats is modelled exactly at
    the level of CPython's `_strptime` regexes: `%m` and `%d` match one or
    two digits with the documented value ranges, `%y` exactly two digits
    (69..99 -> 1900s, 00..68 -> 2000s), `%Y` exactly four digits, the
    separator is a literal, the whole string must match, and the resulting
    calendar date must be a real date with year in 1..9999.
    `strftime("%Y-%m-%d")` is modelled as zero-padded 4-2-2 digit output,
    the behaviour documented for the format codes.
-/

namespace DQPipeline

/-- A raw scalar cell of the loaded dataframe: missing (the pandas `NaN`),
a string, or a finite numeric value (modelled as an exact rational). -/
inductive Value where
  | vnull
  | vstr (s : String)
  | vnum (q : ℚ)
  deriving DecidableEq, BEq

/-- Python whitespace recognised by `str.strip()` (ASCII fragment). -/
def isPySpace (c : Char) : Bool :=
  c == ' ' || c == '\t' || c == '\n' || c == '\r' || c == '\x0b' || c == '\x0c'

/-- Strip `isPySpace` characters from the front of a char list. -/
def trimLeft (l : List Char) : List Char := l.dropWhile isPySpace

/-- Strip `isPySpace` characters from both ends, like Python `str.strip()`. -/
def stripChars (l : List Char) : List Char :=
  ((trimLeft l).reverse.dropWhile isPySpace).reverse

/-- Python `str.strip()` on strings. -/
def pyStrip (s : String) : String := ⟨stripChars s.data⟩

/-- Python `str.upper()` (ASCII case mapping, which agrees with Python on
every character appearing in the synonym tables). -/
def pyUpper (s : String) : String := ⟨s.data.map Char.toUpper⟩

/-- Python `str.lower()` (ASCII case mapping). -/
def pyLower (s : String) : String := ⟨s.data.map Char.toLower⟩

/-- Python `str(v)` on a raw scalar (`str` of `NaN` is `"nan"`).  In the
program only the date validator's `str(v)` application remains, and it
only ever receives the string that already passed `str` type validation;
the other cases keep the stringification total (numeric rendering is
modelled exactly for integral values, `str(5.0) = "5.0"`). -/
def pyStr : Value → String
  | Value.vnull => "nan"
  | Value.vstr s => s
  | Value.vnum q => if q.den = 1 then toString q.num ++ ".0" else toString q

/-- Numeric value of a list of decimal digit characters. -/
def digitsVal (l : List Char) : Nat :=
  l.foldl (fun a c => a * 10 + (c.toNat - 48)) 0

/-- Take the leading run of decimal digits. -/
def spanDigits (l : List Char) : List Char × List Char := l.span Char.isDigit

/-- Exponent suffix of a Python float literal (`e`/`E`, optional sign,
digits); empty input means no exponent. -/
def parseExpPart (m : ℚ) (l : List Char) : Option ℚ :=
  match l with
  | [] => some m
  | c :: rest =>
    if c = 'e' ∨ c = 'E' then
      let p : Bool × List Char :=
        match rest with
        | '+' :: t => (false, t)
        | '-' :: t => (true, t)
        | _ => (false, rest)
      let ed := spanDigits p.2
      if ed.1 = [] ∨ ed.2 ≠ [] then none
      else if p.1 then some (m / (10 : ℚ) ^ digitsVal ed.1)
      else some (m * (10 : ℚ) ^ digitsVal ed.1)
    else none

/-- Unsigned mantissa of a Python float literal: digits with an optional
decimal point, at least one digit overall, then an optional exponent. -/
def parseMantissa (l : List Char) : Option ℚ :=
  let ip := spanDigits l
  match ip.2 with
  | '.' :: rest2 =>
    let fp := spanDigits rest2
    if ip.1 = [] ∧ fp.1 = [] then none
    else parseExpPart ((digitsVal ip.1 : ℚ) + (digitsVal fp.1 : ℚ) / (10 : ℚ) ^ fp.1.length) fp.2
  | _ => if ip.1 = [] then none else parseExpPart (digitsVal ip.1 : ℚ) ip.2

/-- The finite fragment of Python float string parsing: strip whitespace,
optional sign, decimal mantissa with optional exponent.  Returns `none`
for anything else; the non-finite literal words are handled by
`parsePyFloatX`. -/
def parsePyFloat (s : String) : Option ℚ :=
  match stripChars s.data with
  | [] => none
  | '+' :: rest => parseMantissa rest
  | '-' :: rest => (parseMantissa rest).map (fun q => -q)
  | l => parseMantissa l

/-- A Python float value: finite (exact rational idealisation), an
infinity, or `NaN`. -/
inductive PyFloat where
  | fin (q : ℚ)
  | pinf
  | ninf
  | nan
  deriving DecidableEq

/-- Full Python float string parsing: the finite fragment plus the
case-insensitive `inf`/`infinity`/`nan` words with optional sign.
Returns `none` where Python (and pydantic's lax number parsing) raises. -/
def parsePyFloatX (s : String) : Option PyFloat :=
  let l := stripChars s.data
  let p : Bool × List Char :=
    match l with
    | '+' :: t => (false, t)
    | '-' :: t => (true, t)
    | _ => (false, l)
  let w := p.2.map Char.toLower
  if w = ['i', 'n', 'f'] ∨ w = ['i', 'n', 'f', 'i', 'n', 'i', 't', 'y'] then
    some (if p.1 then PyFloat.ninf else PyFloat.pinf)
  else if w = ['n', 'a', 'n'] then some PyFloat.nan
  else (parsePyFloat s).map PyFloat.fin

/-- Round-half-to-even to an integer, Python's `round` policy. -/
def halfEven (x : ℚ) : Int :=
  if x - (⌊x⌋ : ℚ) < 1 / 2 then ⌊x⌋
  else if (1 : ℚ) / 2 < x - (⌊x⌋ : ℚ) then ⌊x⌋ + 1
  else if ⌊x⌋ % 2 = 0 then ⌊x⌋ else ⌊x⌋ + 1

/-- Python `round(x, 2)` on the idealised exact value. -/
def pyRound2 (q : ℚ) : ℚ := (halfEven (q * 100) : ℚ) / 100

/-- pydantic v2 lax type validation for a `str` annotation: a string cell
passes through unchanged; `NaN` and numeric cells are rejected with a
string type error before any `'after'` validator runs. -/
def pydStr (v : Value) : Except String String :=
  match v with
  | Value.vstr s => Except.ok s
  | _ => Except.error "Input should be a valid string"

/-- pydantic v2 lax type validation for an `int` annotation: an integral
number passes as its integer; a fractional float fails; `NaN` (the missing
cell) is not a finite integer and fails; a string is accepted when it
parses as an integral number (pydantic falls back to number parsing for
strings such as `"5.0"`). -/
def pydInt (v : Value) : Except String Int :=
  match v with
  | Value.vnull => Except.error "Input should be a finite number"
  | Value.vnum q =>
    if q.den = 1 then Except.ok q.num
    else Except.error "Input should be a valid integer, got a number with a fractional part"
  | Value.vstr s =>
    match parsePyFloatX s with
    | some (PyFloat.fin q) =>
      if q.den = 1 then Except.ok q.num
      else Except.error "Input should be a valid integer, unable to parse string as an integer"
    | _ => Except.error "Input should be a valid integer, unable to parse string as an integer"

/-- pydantic v2 lax type validation for a `float` annotation
(`allow_inf_nan` defaults to true): any float passes — in particular the
missing cell, which is the float `NaN`; numeric strings including the
`inf`/`nan` words are parsed; anything else fails. -/
def pydFloat (v : Value) : Except String PyFloat :=
  match v with
  | Value.vnull => Except.ok PyFloat.nan
  | Value.vnum q => Except.ok (PyFloat.fin q)
  | Value.vstr s =>
    match parsePyFloatX s with
    | some x => Except.ok x
    | none => Except.error "Input should be a valid number, unable to parse string as a number"

/-- The case-insensitive null markers rejected by `order_id_not_empty`. -/
def nullMarkers : List String := ["nan", "null", "none"]

/-- The body of `AmazonOrder.order_id_not_empty` on its actual input
domain (the `str`-validated cell):
`if not v or str(v).strip() == "" or str(v).lower() in ['nan','null','none']`
raise, else return `str(v).strip()`.  On a string, `not v` is the
emptiness test and `str(v)` is the identity.  (The `pd.isna`-style
handling of raw `NaN`/numeric cells the body also contains is dead code:
`str` type validation rejects those inputs first.) -/
def validateOrderId (s : String) : Except String String :=
  if s = "" ∨ pyStrip s = "" ∨ pyLower s ∈ nullMarkers
  then Except.error "Order ID cannot be empty"
  else Except.ok (pyStrip s)

/-- The body of `AmazonOrder.qty_non_negative` on its actual input domain
(the `int`-coerced cell): `pd.isna` is false on an `int` and
`int(float(n)) = n`, so only the sign check remains.  The negative-quantity
`ValueError('Quantity must be ≥ 0')` is raised inside the validator's own
`try` block, so its `except (ValueError, TypeError)` handler catches it and
re-raises `'Quantity must be a valid number'` — that is the message the
program produces for a negative quantity.  (The `NaN -> 0` default and the
`int(float(v))` truncation in the body are dead code: `int` type
validation rejects missing and fractional cells first.) -/
def validateQty (n : Int) : Except String Int :=
  if n < 0 then Except.error "Quantity must be a valid number"
  else Except.ok n

/-- The body of `AmazonOrder.amount_non_negative` on its actual input
domain (the `float`-validated cell): `pd.isna(NaN)` is live here and
returns `0.0`; otherwise `float(x) = x`, negatives (including `-inf`) are
rejected with the re-raised message, and the result is rounded to two
digits (`round(inf, 2) = inf`). -/
def validateAmount (x : PyFloat) : Except String PyFloat :=
  match x with
  | PyFloat.nan => Except.ok (PyFloat.fin 0)
  | PyFloat.ninf => Except.error "Amount must be a valid number"
  | PyFloat.pinf => Except.ok PyFloat.pinf
  | PyFloat.fin q =>
    if q < 0 then Except.error "Amount must be a valid number"
    else Except.ok (PyFloat.fin (pyRound2 q))

/-- The INR synonym list of `currency_must_be_inr` (the trailing-space
variant is kept although a stripped value can never match it). -/
def inrSynonyms : List String := ["INR", "₹", "RS", "RUPEES", "INR "]

/-- The body of `AmazonOrder.currency_must_be_inr` on its actual input
domain (the `str`-validated cell): blank-after-strip defaults to `"INR"`;
otherwise the stripped, uppercased value must be an INR synonym; on no
match the error names the original raw value.  (The `pd.isna` branch for
a raw `NaN` cell is dead code: `str` type validation rejects it first.) -/
def validateCurrency (s : String) : Except String String :=
  if pyStrip s = "" then Except.ok "INR"
  else if pyUpper (pyStrip s) ∈ inrSynonyms then Except.ok "INR"
  else Except.error ("Currency must be INR, got \"" ++ s ++ "\"")

/-- The India synonym list of `country_must_be_india`. -/
def indiaSynonyms : List String := ["IN", "INDIA", "IN ", "IND", "INDI"]

/-- The body of `AmazonOrder.country_must_be_india` on its actual input
domain: same policy as the currency validator, with accepted code
`"IN"`. -/
def validateCountry (s : String) : Except String String :=
  if pyStrip s = "" then Except.ok "IN"
  else if pyUpper (pyStrip s) ∈ indiaSynonyms then Except.ok "IN"
  else Except.error ("Ship country must be IN, got \"" ++ s ++ "\"")

/-- A parsed calendar date. -/
structure Date where
  year : Nat
  month : Nat
  day : Nat
  deriving DecidableEq

/-- Gregorian leap-year rule, as in Python's `datetime`. -/
def isLeapYear (y : Nat) : Bool :=
  y % 4 = 0 && (y % 100 ≠ 0 || y % 400 = 0)

/-- Days in a month, as validated by `datetime`. -/
def daysInMonth (y m : Nat) : Nat :=
  match m with
  | 2 => if isLeapYear y then 29 else 28
  | 4 => 30
  | 6 => 30
  | 9 => 30
  | 11 => 30
  | _ => 31

/-- Split a char list at every occurrence of a separator character
(`splitOnChar c l` never returns `[]`). -/
def splitOnChar (sep : Char) : List Char → List (List Char)
  | [] => [[]]
  | c :: cs =>
    if c = sep then [] :: splitOnChar sep cs
    else
      match splitOnChar sep cs with
      | [] => [[c]]
      | p :: ps => (c :: p) :: ps

/-- `%m` of `_strptime`: one or two digits with value 1..12. -/
def checkM (p : List Char) : Option Nat :=
  if (p.length = 1 ∨ p.length = 2) ∧ p.all Char.isDigit
     ∧ 1 ≤ digitsVal p ∧ digitsVal p ≤ 12
  then some (digitsVal p) else none

/-- `%d` of `_strptime`: one or two digits with value 1..31. -/
def checkD (p : List Char) : Option Nat :=
  if (p.length = 1 ∨ p.length = 2) ∧ p.all Char.isDigit
     ∧ 1 ≤ digitsVal p ∧ digitsVal p ≤ 31
  then some (digitsVal p) else none

/-- `%y` of `_strptime`: exactly two digits; 0..68 map to the 2000s and
69..99 to the 1900s. -/
def checkY2 (p : List Char) : Option Nat :=
  if p.length = 2 ∧ p.all Char.isDigit then
    some (if digitsVal p ≤ 68 then 2000 + digitsVal p else 1900 + digitsVal p)
  else none

/-- `%Y` of `_strptime`: exactly four digits. -/
def checkY4 (p : List Char) : Option Nat :=
  if p.length = 4 ∧ p.all Char.isDigit then some (digitsVal p) else none

/-- Year directive selector: `%Y` when the flag is true, else `%y`. -/
def checkYear (y4 : Bool) (p : List Char) : Option Nat :=
  if y4 then checkY4 p else checkY2 p

/-- Component order of a date format string. -/
inductive FOrder where
  | mdy
  | dmy
  | ymd
  deriving DecidableEq

/-- One of the nine accepted `strptime` format strings: a separator
character, a component order and a four-digit-year flag. -/
structure Fmt where
  sep : Char
  ord : FOrder
  y4 : Bool
  deriving DecidableEq

/-- `datetime(year, month, day)` construction: year must be in 1..9999 and
the day must exist in the month. -/
def assemble (t : Option (Nat × Nat × Nat)) : Option Date :=
  match t with
  | some (y, m, d) =>
    if 1 ≤ y ∧ y ≤ 9999 ∧ d ≤ daysInMonth y m then some ⟨y, m, d⟩ else none
  | none => none

/-- Match the three split components against the format's directives. -/
def parseParts (ord : FOrder) (y4 : Bool) (parts : List (List Char)) : Option Date :=
  match parts with
  | [p1, p2, p3] =>
    match ord with
    | FOrder.mdy => assemble (do
        let m ← checkM p1
        let d ← checkD p2
        let y ← checkYear y4 p3
        pure (y, m, d))
    | FOrder.dmy => assemble (do
        let d ← checkD p1
        let m ← checkM p2
        let y ← checkYear y4 p3
        pure (y, m, d))
    | FOrder.ymd => assemble (do
        let y ← checkYear y4 p1
        let m ← checkM p2
        let d ← checkD p3
        pure (y, m, d))
  | _ => none

/-- `datetime.strptime(s, fmt)` for one of the nine formats.  Because every
directive matches only digit characters and the separators are literals, a
full regex match is exactly: the string splits on the separator into three
runs that satisfy the three directives. -/
def parseFmt (f : Fmt) (l : List Char) : Option Date :=
  parseParts f.ord f.y4 (splitOnChar f.sep l)

/-- The `date_formats` list of `validate_date_format`, in source order:
`%m-%d-%y`, `%m-%d-%Y`, `%Y-%m-%d`, `%d-%m-%Y`, `%m/%d/%Y`, `%m/%d/%y`,
`%d-%m-%y`, `%d/%m/%Y`, `%d/%m/%y`. -/
def dateFormats : List Fmt :=
  [⟨'-', FOrder.mdy, false⟩,
   ⟨'-', FOrder.mdy, true⟩,
   ⟨'-', FOrder.ymd, true⟩,
   ⟨'-', FOrder.dmy, true⟩,
   ⟨'/', FOrder.mdy, true⟩,
   ⟨'/', FOrder.mdy, false⟩,
   ⟨'-', FOrder.dmy, false⟩,
   ⟨'/', FOrder.dmy, true⟩,
   ⟨'/', FOrder.dmy, false⟩]

/-- The `for fmt in date_formats: try ... except ValueError: continue`
loop: first format that parses wins. -/
def tryFmts : List Fmt → List Char → Option Date
  | [], _ => none
  | f :: fs, l =>
    match parseFmt f l with
    | some d => some d
    | none => tryFmts fs l

/-- The decimal digit character for `k` (meaningful for `k < 10`). -/
def digitChar (k : Nat) : Char := Char.ofNat (48 + k)

/-- Two-digit zero-padded print (`%m`, `%d` of `strftime`). -/
def pad2 (n : Nat) : List Char := [digitChar (n / 10 % 10), digitChar (n % 10)]

/-- Four-digit zero-padded print (`%Y` of `strftime`). -/
def pad4 (n : Nat) : List Char :=
  [digitChar (n / 1000 % 10), digitChar (n / 100 % 10),
   digitChar (n / 10 % 10), digitChar (n % 10)]

/-- `parsed_date.strftime("%Y-%m-%d")` as a char list. -/
def isoChars (d : Date) : List Char :=
  pad4 d.year ++ '-' :: (pad2 d.month ++ '-' :: pad2 d.day)

/-- `parsed_date.strftime("%Y-%m-%d")` as a string. -/
def isoString (d : Date) : String := ⟨isoChars d⟩

/-- `AmazonOrder.validate_date_format`: missing/blank fails with
`'Date cannot be empty'`; otherwise the stripped string is tried against
the nine formats in order, the first success is returned in ISO form, and
no match fails with a message containing the offending string. -/
def validateDate (v : Value) : Except String String :=
  match v with
  | Value.vnull => Except.error "Date cannot be empty"
  | _ =>
    if pyStrip (pyStr v) = "" then Except.error "Date cannot be empty"
    else
      match tryFmts dateFormats (pyStrip (pyStr v)).data with
      | some d => Except.ok (isoString d)
      | none =>
        Except.error ("Invalid date format: \"" ++ pyStrip (pyStr v)
          ++ "\". Expected formats like MM-DD-YY (05-25-22)")

/-- One raw record of the batch: the ordered column-name/value mapping of a
pandas row (`row.to_dict()`). -/
abbrev Row := List (String × Value)

/-- Dictionary lookup in a row. -/
def dictLookup (r : Row) (k : String) : Option Value :=
  (r.find? (fun p => p.1 == k)).map Prod.snd

/-- `row[k]` in the `row_data` construction: a missing column raises
`KeyError(k)`, whose `str()` is the column name in single quotes; the
`except Exception` handler stores exactly that text. -/
def rowGet (r : Row) (k : String) : Except String Value :=
  match dictLookup r k with
  | some v => Except.ok v
  | none => Except.error ("'" ++ k ++ "'")

/-- pydantic renders a validator-raised `ValueError` inside
`str(ValidationError)` as `Value error, <message>`; type errors appear
as-is. -/
def asValueError {α : Type} (e : Except String α) : Except String α :=
  match e with
  | Except.ok a => Except.ok a
  | Except.error m => Except.error ("Value error, " ++ m)

/-- The `order_id` field: `str` type validation, then the validator body
(`mode='after'`). -/
def pydOrderIdField (v : Value) : Except String String :=
  match pydStr v with
  | Except.ok s => asValueError (validateOrderId s)
  | Except.error e => Except.error e

/-- The `qty` field: `int` type validation, then the validator body. -/
def pydQtyField (v : Value) : Except String Int :=
  match pydInt v with
  | Except.ok n => asValueError (validateQty n)
  | Except.error e => Except.error e

/-- The `amount` field: `float` type validation, then the validator
body. -/
def pydAmountField (v : Value) : Except String PyFloat :=
  match pydFloat v with
  | Except.ok x => asValueError (validateAmount x)
  | Except.error e => Except.error e

/-- The `currency` field: `str` type validation, then the validator
body. -/
def pydCurrencyField (v : Value) : Except String String :=
  match pydStr v with
  | Except.ok s => asValueError (validateCurrency s)
  | Except.error e => Except.error e

/-- The `ship_country` field: `str` type validation, then the validator
body. -/
def pydCountryField (v : Value) : Except String String :=
  match pydStr v with
  | Except.ok s => asValueError (validateCountry s)
  | Except.error e => Except.error e

/-- The `date` field: `str` type validation, then the date validator
body. -/
def pydDateField (v : Value) : Except String String :=
  match pydStr v with
  | Except.ok s => asValueError (validateDate (Value.vstr s))
  | Except.error e => Except.error e

/-- The error contribution of one field: empty on success, the field name
with its message on failure. -/
def errOf {α : Type} (name : String) (e : Except String α) :
    List (String × String) :=
  match e with
  | Except.ok _ => []
  | Except.error m => [(name, m)]

/-- All field errors of one record, in `AmazonOrder` declaration order:
pydantic validates every field and aggregates the failures. -/
def fieldErrors (oid q am cur co dt : Value) : List (String × String) :=
  errOf "order_id" (pydOrderIdField oid) ++ errOf "qty" (pydQtyField q) ++
  errOf "amount" (pydAmountField am) ++
  errOf "currency" (pydCurrencyField cur) ++
  errOf "ship_country" (pydCountryField co) ++ errOf "date" (pydDateField dt)

/-- `str(e)` of the aggregated `ValidationError`: the error-count header
followed by each failing field's name and message.  (pydantic appends
`[type=..., input_value=..., input_type=...]` metadata to every message;
that suffix is omitted here, and no claim inspects this rendered text.) -/
def renderValidationError (errs : List (String × String)) : String :=
  toString errs.length ++
    (if errs.length = 1 then " validation error for AmazonOrder"
     else " validation errors for AmazonOrder") ++
  String.join (errs.map (fun p => "\n" ++ p.1 ++ "\n  " ++ p.2))

/-- One iteration of the `validate_with_pydantic` loop body: build
`row_data` from the six fixed raw columns (in the dict-literal evaluation
order, so the first missing column raises `KeyError` before pydantic
runs), then `AmazonOrder(**row_data)`: every field is type-validated and
then field-validated, and all field failures are aggregated into one
`ValidationError` whose `str()` is the stored row error. -/
def rowOutcome (r : Row) : Except String Unit := do
  let oid ← rowGet r "Order ID"
  let q ← rowGet r "Qty"
  let am ← rowGet r "Amount"
  let cur ← rowGet r "currency"
  let co ← rowGet r "ship-country"
  let dt ← rowGet r "Date"
  match fieldErrors oid q am cur co dt with
  | [] => Except.ok ()
  | errs => Except.error (renderValidationError errs)

/-- An entry of `invalid_rows` before the dict annotations are attached:
the original row, its index and the stringified error. -/
structure InvalidEntry where
  row : Row
  rowIndex : Nat
  err : String
  deriving DecidableEq

/-- The row loop of `validate_with_pydantic` starting at row index `i`:
partition into `valid_rows` (original dicts) and `invalid_rows`. -/
def processFrom (i : Nat) : List Row → List Row × List InvalidEntry
  | [] => ([], [])
  | r :: rs =>
    match rowOutcome r with
    | Except.ok _ =>
      (r :: (processFrom (i + 1) rs).1, (processFrom (i + 1) rs).2)
    | Except.error e =>
      ((processFrom (i + 1) rs).1, ⟨r, i, e⟩ :: (processFrom (i + 1) rs).2)

/-- The full row loop over a batch. -/
def process (rows : List Row) : List Row × List InvalidEntry := processFrom 0 rows

/-- Python dict assignment `d[k] = v`: replace in place if the key exists,
else append at the end. -/
def dictSet : Row → String → Value → Row
  | [], k, v => [(k, v)]
  | p :: ps, k, v => if p.1 = k then (k, v) :: ps else p :: dictSet ps k v

/-- The annotated invalid record written to `invalid_rows.csv`:
`invalid_row['validation_error'] = str(e)` then
`invalid_row['row_index'] = index`. -/
def mkInvalidRecord (e : InvalidEntry) : Row :=
  dictSet (dictSet e.row "validation_error" (Value.vstr e.err))
    "row_index" (Value.vnum (e.rowIndex : ℚ))

/-- Whether an `Except` result is a success. -/
def isOkB {α : Type} (e : Except String α) : Bool :=
  match e with
  | Except.ok _ => true
  | Except.error _ => false

/-- Decidable equality of validation results. -/
instance exceptDecEq {ε α : Type} [DecidableEq ε] [DecidableEq α] :
    DecidableEq (Except ε α) := fun a b =>
  match a, b with
  | Except.ok x, Except.ok y =>
    if h : x = y then isTrue (congrArg Except.ok h)
    else isFalse (fun e => h (Except.ok.inj e))
  | Except.error x, Except.error y =>
    if h : x = y then isTrue (congrArg Except.error h)
    else isFalse (fun e => h (Except.error.inj e))
  | Except.ok _, Except.error _ => isFalse (fun e => Except.noConfusion e)
  | Except.error _, Except.ok _ => isFalse (fun e => Except.noConfusion e)

/-- A loaded dataframe: the ordered list of columns with their cells. -/
structure DataFrame where
  columns : List (String × List Value)

/-- Column access: `none` when the column is absent from the batch. -/
def dfLookup (df : DataFrame) (c : String) : Option (List Value) :=
  (df.columns.find? (fun p => p.1 == c)).map Prod.snd

/-- Number of rows of the dataframe. -/
def nRows (df : DataFrame) : Nat :=
  df.columns.foldr (fun p a => max p.2.length a) 0

/-- The `i`-th row as the dict `df.iterrows()` yields (every column of the
frame is present; a short column pads with missing values). -/
def dfRow (df : DataFrame) (i : Nat) : Row :=
  df.columns.map (fun p => (p.1, p.2.getD i Value.vnull))

/-- All rows of the dataframe in order. -/
def dfRows (df : DataFrame) : List Row :=
  (List.range (nRows df)).map (dfRow df)

/-- The five dataset-wide expectations of
`validate_with_great_expectations`, as declared constraint data. -/
inductive GxConstraint where
  | notNull (col : String)
  | unique (col : String)
  | nonNegative (col : String)
  | inSet (col : String) (vals : List String)
  deriving DecidableEq

/-- The column a constraint is declared over. -/
def constraintColumn : GxConstraint → String
  | GxConstraint.notNull c => c
  | GxConstraint.unique c => c
  | GxConstraint.nonNegative c => c
  | GxConstraint.inSet c _ => c

/-- Boolean no-duplicates check on a list of cells. -/
def nodupB : List Value → Bool
  | [] => true
  | v :: vs => !(vs.contains v) && nodupB vs

/-- Modelled from the spec: the pass/fail semantics of one Great
Expectations constraint over a present column.  The library implementing
`ExpectColumnValuesToNotBeNull`, `ExpectColumnValuesToBeUnique`,
`ExpectColumnValuesToBeBetween(min_value=0)` and
`ExpectColumnValuesToBeInSet` is external to the repository; the spec's
reading is followed: no missing values / all values unique / every value
non-negative / every value in the vocabulary. -/
def evalOnColumn : GxConstraint → List Value → Bool
  | GxConstraint.notNull _, vals =>
    vals.all (fun v => match v with | Value.vnull => false | _ => true)
  | GxConstraint.unique _, vals => nodupB vals
  | GxConstraint.nonNegative _, vals =>
    vals.all (fun v =>
      match v with
      | Value.vnull => true
      | Value.vnum q => decide (0 ≤ q)
      | Value.vstr _ => false)
  | GxConstraint.inSet _ set, vals =>
    vals.all (fun v =>
      match v with
      | Value.vstr s => set.contains s
      | _ => false)

/-- Modelled from the spec: evaluating one constraint against the batch.
"A column absent from the batch is a constraint failure, not a skip." -/
def evalConstraint (df : DataFrame) (e : GxConstraint) : Bool :=
  match dfLookup df (constraintColumn e) with
  | none => false
  | some vals => evalOnColumn e vals

/-- The accepted `Status` vocabulary, copied from the expectation list. -/
def allowedStatuses : List String :=
  ["Cancelled", "Shipped - Delivered to Buyer", "Shipped",
   "Shipped - Returned to Seller", "Shipped - Rejected by Buyer",
   "Shipped - Lost in Transit", "Shipped - Out for Delivery",
   "Shipped - Returning to Seller", "Shipped - Picked Up", "Pending",
   "Pending - Waiting for Pick Up", "Shipped - Damaged", "Shipping"]

/-- The `expectations` list of `validate_with_great_expectations`, in
source order. -/
def expectationsList : List GxConstraint :=
  [GxConstraint.notNull "Order ID",
   GxConstraint.unique "Order ID",
   GxConstraint.nonNegative "Qty",
   GxConstraint.nonNegative "Amount",
   GxConstraint.inSet "Status" allowedStatuses]

/-- The per-expectation result list: the loop runs `batch.validate` for
every expectation unconditionally and appends each result. -/
def geResults (df : DataFrame) : List Bool :=
  expectationsList.map (evalConstraint df)

/-- `'success': all(result.success for result in validation_results)`. -/
def geSuccessB (df : DataFrame) : Bool := (geResults df).all (fun b => b)

/-- `len([r for r in ge_results['results'] if not r.success])`. -/
def failedExpectationCount (df : DataFrame) : Nat :=
  ((geResults df).filter (fun b => !b)).length

/-- `pydantic_results['invalid_count']` for the batch. -/
def invalidRowCount (df : DataFrame) : Nat :=
  (process (dfRows df)).2.length

/-- `validation_results['pydantic_success'] = invalid_count == 0`. -/
def pydanticSuccessB (df : DataFrame) : Bool := invalidRowCount df == 0

/-- `overall_success = ge_success and pydantic_success` in `main`. -/
def overallSuccess (df : DataFrame) : Bool :=
  geSuccessB df && pydanticSuccessB df

/-- A boolean list is all-true exactly when it has no false element. -/
lemma all_id_iff_no_false (l : List Bool) :
    (l.all (fun b => b) = true) ↔ ((l.filter (fun b => !b)).length = 0) := by
  induction l with
  | nil => simp
  | cons b t ih => cases b <;> simp [ih]

/-- C1: the aggregate verdict satisfies
`overall_pass = (invalid_count == 0) AND (failed_constraint_count == 0)`:
for every batch, `main`'s overall success boolean is true exactly when the
row-level invalid count is zero and the count of failed dataset
expectations is zero. -/
theorem c1_overall_pass_conjunction (df : DataFrame) :
    overallSuccess df = true ↔
      (invalidRowCount df = 0 ∧ failedExpectationCount df = 0) := by
  unfold overallSuccess geSuccessB pydanticSuccessB failedExpectationCount
  rw [Bool.and_eq_true]
  constructor
  · rintro ⟨hg, hp⟩
    exact ⟨by simpa using hp, (all_id_iff_no_false _).mp hg⟩
  · rintro ⟨hp, hg⟩
    exact ⟨(all_id_iff_no_false _).mpr hg, by simpa using hp⟩

/-- C6 counterexample: the claim says the identifier validator fails
exactly on missing/blank/null-marker values and succeeds on every other
raw value; but a numeric identifier cell (here `5`, which is none of
those) is rejected by the `order_id: str` type validation before the
validator body runs, so the row fails instead of receiving the trimmed
string. -/
theorem c6_identifier_counterexample :
    pydOrderIdField (Value.vnum 5) =
      Except.error "Input should be a valid string" := rfl

/-- C6 amended: for every string identifier cell the program fails exactly
when the string is blank after trimming or case-insensitively equal to a
null marker, and otherwise returns the trimmed string; a missing (`NaN`)
cell and every numeric cell fail the `order_id: str` type validation
before the validator body runs, so they are rejected with a string type
error rather than by the null-marker check. -/
theorem c6_identifier_amended :
    pydOrderIdField Value.vnull = Except.error "Input should be a valid string" ∧
    (∀ q : ℚ, pydOrderIdField (Value.vnum q) =
      Except.error "Input should be a valid string") ∧
    (∀ s : String, (pyStrip s = "" ∨ pyLower s ∈ nullMarkers) →
      pydOrderIdField (Value.vstr s) =
        Except.error "Value error, Order ID cannot be empty") ∧
    (∀ s : String, ¬(pyStrip s = "" ∨ pyLower s ∈ nullMarkers) →
      pydOrderIdField (Value.vstr s) = Except.ok (pyStrip s)) := by
  refine ⟨rfl, fun q => rfl, ?_, ?_⟩
  · intro s h
    simp only [pydOrderIdField, pydStr]
    unfold validateOrderId
    rw [if_pos (Or.inr h)]
    decide
  · intro s h
    simp only [pydOrderIdField, pydStr]
    unfold validateOrderId
    rw [if_neg]
    · rfl
    intro hc
    rcases hc with hf | hc
    · exact h (Or.inl (by rw [hf]; rfl))
    · exact h hc

/-- C6 amended witness: the empty identifier fails (Scenario B) and a
padded ordinary identifier is returned trimmed. -/
theorem c6_identifier_amended_witness :
    pydOrderIdField (Value.vstr "") =
      Except.error "Value error, Order ID cannot be empty" ∧
    pydOrderIdField (Value.vstr " X1 ") = Except.ok "X1" := by
  constructor
  · exact c6_identifier_amended.2.2.1 "" (Or.inl rfl)
  · have hs : pyStrip " X1 " = "X1" := by decide
    rw [c6_identifier_amended.2.2.2 " X1 " (by decide), hs]

/-- A row of Scenario-A shape except that it has no `currency` column at
all (the batch was loaded without one). -/
def rowNoCurrency : Row :=
  [("Order ID", Value.vstr "X1"), ("Qty", Value.vnum 5),
   ("Amount", Value.vnum 100), ("ship-country", Value.vstr "IN"),
   ("Date", Value.vstr "05-25-22")]

/-- C2 counterexample: the claim says a missing currency — including a
batch with no currency column at all — is substituted with `"INR"` and
the row is not classified Invalid because of currency.  The code instead
(a) raises `KeyError('currency')` while building `row_data` when the
column is absent, so the otherwise fully valid row lands in
`invalid_rows` with error text `'currency'`, and (b) rejects a missing
(`NaN`) currency cell at the `currency: str` type validation, before the
validator's default can apply. -/
theorem c2_currency_counterexample :
    dictLookup rowNoCurrency "currency" = none ∧
    process [rowNoCurrency] = ([], [⟨rowNoCurrency, 0, "'currency'"⟩]) ∧
    pydCurrencyField Value.vnull =
      Except.error "Input should be a valid string" :=
  ⟨rfl, rfl, rfl⟩

/-- C2 amended: a row whose currency value is a blank string gets `"INR"`
substituted and does not fail on currency; an explicit non-blank string is
trimmed, uppercased and matched against the INR synonym set, mapping to
`"INR"` on match and failing with a message naming the original raw value
otherwise.  But a missing (`NaN`) currency cell fails the `currency: str`
type validation before the validator's default can apply, and a batch
with no currency column at all makes every row Invalid with the
`KeyError` text `'currency'`. -/
theorem c2_currency_amended :
    pydCurrencyField Value.vnull =
      Except.error "Input should be a valid string" ∧
    (∀ s : String, pyStrip s = "" →
      pydCurrencyField (Value.vstr s) = Except.ok "INR") ∧
    (∀ s : String, pyStrip s ≠ "" → pyUpper (pyStrip s) ∈ inrSynonyms →
      pydCurrencyField (Value.vstr s) = Except.ok "INR") ∧
    (∀ s : String, pyStrip s ≠ "" → pyUpper (pyStrip s) ∉ inrSynonyms →
      pydCurrencyField (Value.vstr s) =
        Except.error ("Value error, Currency must be INR, got \"" ++ s ++ "\"")) ∧
    process [rowNoCurrency] = ([], [⟨rowNoCurrency, 0, "'currency'"⟩]) := by
  refine ⟨rfl, ?_, ?_, ?_, rfl⟩
  · intro s h
    simp only [pydCurrencyField, pydStr]
    unfold validateCurrency
    rw [if_pos h]
    rfl
  · intro s h1 h2
    simp only [pydCurrencyField, pydStr]
    unfold validateCurrency
    rw [if_neg h1, if_pos h2]
    rfl
  · intro s h1 h2
    simp only [pydCurrencyField, pydStr]
    unfold validateCurrency
    rw [if_neg h1, if_neg h2]
    simp only [asValueError]
    simp only [← String.append_assoc]
    rw [show ("Value error, " ++ "Currency must be INR, got \"") =
      "Value error, Currency must be INR, got \"" from by decide]

/-- C2 amended witness: a synonym maps to `"INR"`, a non-synonym fails
naming the raw value. -/
theorem c2_currency_amended_witness :
    pydCurrencyField (Value.vstr " rs ") = Except.ok "INR" ∧
    pydCurrencyField (Value.vstr "USD") =
      Except.error "Value error, Currency must be INR, got \"USD\"" := by
  constructor
  · exact c2_currency_amended.2.2.1 " rs " (by decide) (by decide)
  · rw [c2_currency_amended.2.2.2.1 "USD" (by decide) (by decide)]
    decide

/-- C3 counterexample: the claim says a missing/null quantity makes the
validator return 0 and the row does not fail on quantity; but the
`qty: int` type validation rejects the missing cell (the float `NaN`)
before `qty_non_negative` runs, so the quantity field fails rather than
returning 0 (while an ordinary integral quantity passes). -/
theorem c3_quantity_counterexample :
    isOkB (pydQtyField Value.vnull) = false ∧
    pydQtyField (Value.vnum 5) = Except.ok 5 :=
  ⟨rfl, rfl⟩

/-- C3 amended: a missing/null quantity fails the `qty: int` type
validation before the validator body runs (its 0-default is dead code); an
integral number is accepted and, when negative, rejected by the validator
with the re-raised message `'Quantity must be a valid number'`; a
fractional float fails integer coercion; a string is accepted only when it
parses as an integral number; the integer itself is returned on
success. -/
theorem c3_quantity_amended :
    isOkB (pydQtyField Value.vnull) = false ∧
    (∀ q : ℚ, q.den = 1 → q.num < 0 →
      pydQtyField (Value.vnum q) =
        Except.error "Value error, Quantity must be a valid number") ∧
    (∀ q : ℚ, q.den = 1 → 0 ≤ q.num →
      pydQtyField (Value.vnum q) = Except.ok q.num) ∧
    (∀ q : ℚ, q.den ≠ 1 → isOkB (pydQtyField (Value.vnum q)) = false) ∧
    (∀ s : String, parsePyFloatX s = none →
      isOkB (pydQtyField (Value.vstr s)) = false) := by
  refine ⟨rfl, ?_, ?_, ?_, ?_⟩
  · intro q hden hneg
    simp only [pydQtyField, pydInt]
    rw [if_pos hden]
    show asValueError (validateQty q.num) =
      Except.error "Value error, Quantity must be a valid number"
    unfold validateQty
    rw [if_pos hneg]
    decide
  · intro q hden hpos
    simp only [pydQtyField, pydInt]
    rw [if_pos hden]
    show asValueError (validateQty q.num) = Except.ok q.num
    unfold validateQty
    rw [if_neg (by omega)]
    rfl
  · intro q hden
    simp only [pydQtyField, pydInt]
    rw [if_neg hden]
    rfl
  · intro s h
    simp only [pydQtyField, pydInt, h]
    rfl

/-- C3 amended witness: a negative integral quantity fails with the
re-raised validator message, and an ordinary quantity is returned as its
integer. -/
theorem c3_quantity_amended_witness :
    pydQtyField (Value.vnum (-3)) =
      Except.error "Value error, Quantity must be a valid number" ∧
    pydQtyField (Value.vnum 4) = Except.ok 4 := by
  constructor
  · exact c3_quantity_amended.2.1 (-3) (by decide) (by decide)
  · rw [c3_quantity_amended.2.2.1 4 (by decide) (by decide)]
    decide

/-- A dataframe of well-formed rows that lacks an `Order ID` column. -/
def dfNoOrderId : DataFrame := ⟨[("Qty", [Value.vnum 1])]⟩

/-- C7: all five dataset-wide expectations are evaluated, each
independently of the others' outcomes (the result list is the pointwise
evaluation of the declared constraint list), and a constraint over a
column absent from the batch evaluates to failure, never to a skip or a
pass. -/
theorem c7_dataset_constraints :
    (∀ df : DataFrame,
      geResults df =
        [evalConstraint df (GxConstraint.notNull "Order ID"),
         evalConstraint df (GxConstraint.unique "Order ID"),
         evalConstraint df (GxConstraint.nonNegative "Qty"),
         evalConstraint df (GxConstraint.nonNegative "Amount"),
         evalConstraint df (GxConstraint.inSet "Status" allowedStatuses)]) ∧
    (∀ (df : DataFrame) (e : GxConstraint),
      dfLookup df (constraintColumn e) = none → evalConstraint df e = false) := by
  constructor
  · intro df
    rfl
  · intro df e h
    unfold evalConstraint
    rw [h]

/-- C7 witness: on a batch without an `Order ID` column, the not-null
constraint over `Order ID` is reported as a failure. -/
theorem c7_dataset_constraints_witness :
    dfLookup dfNoOrderId "Order ID" = none ∧
    evalConstraint dfNoOrderId (GxConstraint.notNull "Order ID") = false := by
  refine ⟨rfl, ?_⟩
  exact c7_dataset_constraints.2 dfNoOrderId (GxConstraint.notNull "Order ID") rfl

/-- The valid partition is the sublist of rows whose outcome is a success,
independently of the starting index. -/
lemma processFrom_fst (i : Nat) (rows : List Row) :
    (processFrom i rows).1 = rows.filter (fun r => isOkB (rowOutcome r)) := by
  induction rows generalizing i with
  | nil => rfl
  | cons r rs ih =>
    cases h : rowOutcome r with
    | ok u => simp [processFrom, h, isOkB, List.filter_cons, ih]
    | error e => simp [processFrom, h, isOkB, List.filter_cons, ih]

/-- Forgetting the attached indices, the invalid partition is the
row/error list of the failing rows, independently of the starting index. -/
lemma processFrom_snd_map (i : Nat) (rows : List Row) :
    (processFrom i rows).2.map (fun e => (e.row, e.err)) =
      rows.filterMap (fun r =>
        match rowOutcome r with
        | Except.error e => some (r, e)
        | Except.ok _ => none) := by
  induction rows generalizing i with
  | nil => rfl
  | cons r rs ih =>
    cases h : rowOutcome r with
    | ok u => simp [processFrom, h, List.filterMap_cons, ih]
    | error e => simp [processFrom, h, List.filterMap_cons, ih]

/-- Every invalid entry carries one of the input rows. -/
lemma processFrom_snd_row_mem (i : Nat) (rows : List Row) (e : InvalidEntry)
    (he : e ∈ (processFrom i rows).2) : e.row ∈ rows := by
  induction rows generalizing i with
  | nil => simp [processFrom] at he
  | cons r rs ih =>
    cases h : rowOutcome r with
    | ok u =>
      simp only [processFrom, h] at he
      exact List.mem_cons_of_mem _ (ih (i + 1) he)
    | error er =>
      simp only [processFrom, h, List.mem_cons] at he
      rcases he with he | he
      · rw [he]
        exact List.mem_cons_self _ _
      · exact List.mem_cons_of_mem _ (ih (i + 1) he)

/-- C8: row validation is order independent: for every batch and every
permutation of its rows, the valid partition is permuted accordingly and
the invalid partition, with the attached `row_index` forgotten, carries
the same rows with the same per-row error reasons. -/
theorem c8_order_independence (rows1 rows2 : List Row)
    (hperm : rows1.Perm rows2) :
    ((process rows1).1).Perm ((process rows2).1) ∧
    (((process rows1).2).map (fun e => (e.row, e.err))).Perm
      (((process rows2).2).map (fun e => (e.row, e.err))) := by
  constructor
  · rw [process, process, processFrom_fst, processFrom_fst]
    exact hperm.filter _
  · rw [process, process, processFrom_snd_map, processFrom_snd_map]
    exact hperm.filterMap _

/-- A fully valid row (its amount cell is the missing `NaN`, which passes
`float` validation and is defaulted to 0.0 by the amount validator). -/
def rowOkW : Row :=
  [("Order ID", Value.vstr "X1"), ("Qty", Value.vnum 5),
   ("Amount", Value.vnull), ("currency", Value.vstr "INR"),
   ("ship-country", Value.vstr "IN"), ("Date", Value.vstr "05-25-22")]

/-- A row failing on its empty identifier. -/
def rowEmptyIdW : Row :=
  [("Order ID", Value.vstr ""), ("Qty", Value.vnum 5),
   ("Amount", Value.vnull), ("currency", Value.vstr "INR"),
   ("ship-country", Value.vstr "IN"), ("Date", Value.vstr "05-25-22")]

/-- C8 witness: swapping two concrete rows permutes both partitions. -/
theorem c8_order_independence_witness :
    ((process [rowOkW, rowEmptyIdW]).1).Perm ((process [rowEmptyIdW, rowOkW]).1) ∧
    (((process [rowOkW, rowEmptyIdW]).2).map (fun e => (e.row, e.err))).Perm
      (((process [rowEmptyIdW, rowOkW]).2).map (fun e => (e.row, e.err))) :=
  c8_order_independence [rowOkW, rowEmptyIdW] [rowEmptyIdW, rowOkW]
    (List.Perm.swap rowEmptyIdW rowOkW [])

/-- `d[k] = v` on a dict without key `k` appends the pair at the end. -/
lemma dictSet_of_not_mem (r : Row) (k : String) (v : Value)
    (h : k ∉ r.map Prod.fst) : dictSet r k v = r ++ [(k, v)] := by
  induction r with
  | nil => rfl
  | cons p ps ih =>
    have h1 : p.1 ≠ k := by
      intro e
      exact h (by rw [List.map_cons]; exact List.mem_cons.mpr (Or.inl e.symm))
    have h2 : k ∉ ps.map Prod.fst := by
      intro hm
      exact h (by rw [List.map_cons]; exact List.mem_cons_of_mem _ hm)
    simp [dictSet, h1, ih h2]

/-- C9: the Valid verdict carries the row's original raw field mapping
unchanged (the valid partition is literally the sublist of passing input
rows, not the coerced canonical records), and each Invalid verdict carries
the original raw field mapping of one input row with exactly the two
annotations `validation_error` and `row_index` appended, every original
field value unchanged. -/
theorem c9_verdict_payload (rows : List Row) :
    ((process rows).1 = rows.filter (fun r => isOkB (rowOutcome r))) ∧
    (∀ e : InvalidEntry, e ∈ (process rows).2 →
      e.row ∈ rows ∧
      ("validation_error" ∉ e.row.map Prod.fst →
        "row_index" ∉ e.row.map Prod.fst →
        mkInvalidRecord e =
          e.row ++ [("validation_error", Value.vstr e.err),
                    ("row_index", Value.vnum (e.rowIndex : ℚ))])) := by
  constructor
  · rw [process, processFrom_fst]
  · intro e he
    refine ⟨processFrom_snd_row_mem 0 rows e he, ?_⟩
    intro h1 h2
    unfold mkInvalidRecord
    rw [dictSet_of_not_mem _ _ _ h1]
    have hm : "row_index" ∉
        (e.row ++ [("validation_error", Value.vstr e.err)]).map Prod.fst := by
      rw [List.map_append]
      intro hmem
      rcases List.mem_append.mp hmem with hma | hma
      · exact h2 hma
      · simp only [List.map_cons, List.map_nil, List.mem_singleton] at hma
        exact absurd hma (by decide)
    rw [dictSet_of_not_mem _ _ _ hm, List.append_assoc]
    rfl

/-- C9 witness: on a concrete two-row batch, the invalid row's artifact
record is its original dict plus exactly the two annotations. -/
theorem c9_verdict_payload_witness :
    mkInvalidRecord
        ⟨rowEmptyIdW, 1,
         "1 validation error for AmazonOrder\norder_id\n  Value error, Order ID cannot be empty"⟩ =
      rowEmptyIdW ++
        [("validation_error",
          Value.vstr
            "1 validation error for AmazonOrder\norder_id\n  Value error, Order ID cannot be empty"),
         ("row_index", Value.vnum ((1 : ℕ) : ℚ))] ∧
    rowEmptyIdW ∈ [rowOkW, rowEmptyIdW] := by
  have h := (c9_verdict_payload [rowOkW, rowEmptyIdW]).2
    ⟨rowEmptyIdW, 1,
     "1 validation error for AmazonOrder\norder_id\n  Value error, Order ID cannot be empty"⟩
    (by decide)
  exact ⟨h.2 (by decide) (by decide), h.1⟩

/-- The code of a decimal digit character. -/
lemma digitChar_toNat (k : Nat) (h : k < 10) : (digitChar k).toNat = 48 + k := by
  interval_cases k <;> decide

/-- Printed digits are digit characters. -/
lemma digitChar_isDigit (k : Nat) (h : k < 10) : (digitChar k).isDigit = true := by
  interval_cases k <;> decide

/-- A digit character is never the dash separator. -/
lemma digitChar_ne_dash (k : Nat) (h : k < 10) : digitChar k ≠ '-' := by
  interval_cases k <;> decide

/-- A digit character is not Python whitespace. -/
lemma digitChar_not_space (k : Nat) (h : k < 10) :
    isPySpace (digitChar k) = false := by
  interval_cases k <;> decide

/-- The four-digit print consists of digit characters. -/
lemma pad4_all_digits (n : Nat) : (pad4 n).all Char.isDigit = true := by
  have h1 := digitChar_isDigit (n / 1000 % 10) (Nat.mod_lt _ (by norm_num))
  have h2 := digitChar_isDigit (n / 100 % 10) (Nat.mod_lt _ (by norm_num))
  have h3 := digitChar_isDigit (n / 10 % 10) (Nat.mod_lt _ (by norm_num))
  have h4 := digitChar_isDigit (n % 10) (Nat.mod_lt _ (by norm_num))
  simp [pad4, List.all_cons, h1, h2, h3, h4]

/-- The two-digit print consists of digit characters. -/
lemma pad2_all_digits (n : Nat) : (pad2 n).all Char.isDigit = true := by
  have h1 := digitChar_isDigit (n / 10 % 10) (Nat.mod_lt _ (by norm_num))
  have h2 := digitChar_isDigit (n % 10) (Nat.mod_lt _ (by norm_num))
  simp [pad2, List.all_cons, h1, h2]

/-- Reading back the four-digit print gives the printed number. -/
lemma digitsVal_pad4 (n : Nat) (h : n < 10000) : digitsVal (pad4 n) = n := by
  have h1 := digitChar_toNat (n / 1000 % 10) (Nat.mod_lt _ (by norm_num))
  have h2 := digitChar_toNat (n / 100 % 10) (Nat.mod_lt _ (by norm_num))
  have h3 := digitChar_toNat (n / 10 % 10) (Nat.mod_lt _ (by norm_num))
  have h4 := digitChar_toNat (n % 10) (Nat.mod_lt _ (by norm_num))
  simp [pad4, digitsVal, List.foldl, h1, h2, h3, h4]
  omega

/-- Reading back the two-digit print gives the printed number. -/
lemma digitsVal_pad2 (n : Nat) (h : n < 100) : digitsVal (pad2 n) = n := by
  have h1 := digitChar_toNat (n / 10 % 10) (Nat.mod_lt _ (by norm_num))
  have h2 := digitChar_toNat (n % 10) (Nat.mod_lt _ (by norm_num))
  simp [pad2, digitsVal, List.foldl, h1, h2]
  omega

/-- `%Y` accepts the four-digit print of a year below 10000. -/
lemma checkY4_pad4 (y : Nat) (h : y < 10000) : checkY4 (pad4 y) = some y := by
  unfold checkY4
  rw [if_pos ⟨rfl, pad4_all_digits y⟩, digitsVal_pad4 y h]

/-- `%m` accepts the two-digit print of a real month. -/
lemma checkM_pad2 (m : Nat) (h1 : 1 ≤ m) (h2 : m ≤ 12) :
    checkM (pad2 m) = some m := by
  have hd := digitsVal_pad2 m (by omega)
  unfold checkM
  rw [hd]
  rw [if_pos ⟨Or.inr rfl, pad2_all_digits m, h1, h2⟩]

/-- `%d` accepts the two-digit print of a real day. -/
lemma checkD_pad2 (d : Nat) (h1 : 1 ≤ d) (h2 : d ≤ 31) :
    checkD (pad2 d) = some d := by
  have hd := digitsVal_pad2 d (by omega)
  unfold checkD
  rw [hd]
  rw [if_pos ⟨Or.inr rfl, pad2_all_digits d, h1, h2⟩]

/-- `%m` rejects a four-digit run. -/
lemma checkM_pad4_none (n : Nat) : checkM (pad4 n) = none := by
  unfold checkM
  rw [if_neg]
  rintro ⟨hlen, -⟩
  have h4 : (pad4 n).length = 4 := rfl
  rcases hlen with h | h <;> rw [h4] at h <;> omega

/-- The calendar bounds every date produced by a successful parse
satisfies. -/
def validBounds (d : Date) : Prop :=
  1 ≤ d.year ∧ d.year ≤ 9999 ∧ 1 ≤ d.month ∧ d.month ≤ 12 ∧
  1 ≤ d.day ∧ d.day ≤ daysInMonth d.year d.month

/-- A successful `%m` value is a real month number. -/
lemma checkM_some (p : List Char) (v : Nat) (h : checkM p = some v) :
    1 ≤ v ∧ v ≤ 12 := by
  unfold checkM at h
  split at h
  · rename_i hc
    injection h with h
    subst h
    exact ⟨hc.2.2.1, hc.2.2.2⟩
  · exact Option.noConfusion h

/-- A successful `%d` value is a real day-of-month number. -/
lemma checkD_some (p : List Char) (v : Nat) (h : checkD p = some v) :
    1 ≤ v ∧ v ≤ 31 := by
  unfold checkD at h
  split at h
  · rename_i hc
    injection h with h
    subst h
    exact ⟨hc.2.2.1, hc.2.2.2⟩
  · exact Option.noConfusion h

/-- A successful `datetime` construction pins the triple and validates the
year range and the day against the month length. -/
lemma assemble_some (t : Option (Nat × Nat × Nat)) (d : Date)
    (h : assemble t = some d) :
    t = some (d.year, d.month, d.day) ∧ 1 ≤ d.year ∧ d.year ≤ 9999 ∧
      d.day ≤ daysInMonth d.year d.month := by
  cases t with
  | none => exact Option.noConfusion h
  | some p =>
    obtain ⟨y, m, dd⟩ := p
    rw [show assemble (some (y, m, dd)) =
        if 1 ≤ y ∧ y ≤ 9999 ∧ dd ≤ daysInMonth y m then some ⟨y, m, dd⟩
        else none from rfl] at h
    split at h
    · rename_i hc
      injection h with h
      subst h
      exact ⟨rfl, hc.1, hc.2.1, hc.2.2⟩
    · exact Option.noConfusion h

/-- Every date returned by a format parse satisfies the calendar bounds. -/
lemma parseFmt_bounds (f : Fmt) (l : List Char) (d : Date)
    (h : parseFmt f l = some d) : validBounds d := by
  unfold parseFmt parseParts at h
  rcases hsplit : splitOnChar f.sep l with - | ⟨p1, - | ⟨p2, - | ⟨p3, - | ps⟩⟩⟩ <;>
    rw [hsplit] at h
  case nil => exact Option.noConfusion h
  case cons.nil => exact Option.noConfusion h
  case cons.cons.nil => exact Option.noConfusion h
  case cons.cons.cons.cons => exact Option.noConfusion h
  case cons.cons.cons.nil =>
    cases ford : f.ord <;> rw [ford] at h
    · -- mdy
      obtain ⟨ht, hy1, hy2, hday⟩ := assemble_some _ _ h
      cases hm : checkM p1 <;> simp [hm] at ht
      cases hdd : checkD p2 <;> simp [hdd] at ht
      cases hyy : checkYear f.y4 p3 <;> simp [hyy] at ht
      obtain ⟨hty, htm, htd⟩ := ht
      obtain ⟨hm1, hm2⟩ := checkM_some _ _ hm
      obtain ⟨hd1, -⟩ := checkD_some _ _ hdd
      exact ⟨hy1, hy2, by omega, by omega, by omega, hday⟩
    · -- dmy
      obtain ⟨ht, hy1, hy2, hday⟩ := assemble_some _ _ h
      cases hdd : checkD p1 <;> simp [hdd] at ht
      cases hm : checkM p2 <;> simp [hm] at ht
      cases hyy : checkYear f.y4 p3 <;> simp [hyy] at ht
      obtain ⟨hty, htm, htd⟩ := ht
      obtain ⟨hm1, hm2⟩ := checkM_some _ _ hm
      obtain ⟨hd1, -⟩ := checkD_some _ _ hdd
      exact ⟨hy1, hy2, by omega, by omega, by omega, hday⟩
    · -- ymd
      obtain ⟨ht, hy1, hy2, hday⟩ := assemble_some _ _ h
      cases hyy : checkYear f.y4 p1 <;> simp [hyy] at ht
      cases hm : checkM p2 <;> simp [hm] at ht
      cases hdd : checkD p3 <;> simp [hdd] at ht
      obtain ⟨hty, htm, htd⟩ := ht
      obtain ⟨hm1, hm2⟩ := checkM_some _ _ hm
      obtain ⟨hd1, -⟩ := checkD_some _ _ hdd
      exact ⟨hy1, hy2, by omega, by omega, by omega, hday⟩

/-- A char list with no whitespace is untouched by `dropWhile`. -/
lemma dropWhile_space_eq_self (l : List Char)
    (h : ∀ c ∈ l, isPySpace c = false) : l.dropWhile isPySpace = l := by
  cases l with
  | nil => rfl
  | cons c cs => simp [List.dropWhile_cons, h c (List.mem_cons_self c cs)]

/-- A char list with no whitespace is untouched by stripping. -/
lemma stripChars_eq_self (l : List Char)
    (h : ∀ c ∈ l, isPySpace c = false) : stripChars l = l := by
  unfold stripChars trimLeft
  rw [dropWhile_space_eq_self l h]
  rw [dropWhile_space_eq_self l.reverse (fun c hc => h c (List.mem_reverse.mp hc))]
  exact List.reverse_reverse l

/-- Splitting at a separator absent from the list is trivial. -/
lemma splitOnChar_no_sep (c : Char) (l : List Char) (h : c ∉ l) :
    splitOnChar c l = [l] := by
  induction l with
  | nil => rfl
  | cons a as ih =>
    have ha : ¬(a = c) := fun e => h (e ▸ List.mem_cons_self a as)
    have h2 : c ∉ as := fun hm => h (List.mem_cons_of_mem _ hm)
    simp [splitOnChar, ha, ih h2]

/-- Splitting peels off a separator-free prefix. -/
lemma splitOnChar_append (c : Char) (xs ys : List Char) (h : c ∉ xs) :
    splitOnChar c (xs ++ c :: ys) = xs :: splitOnChar c ys := by
  induction xs with
  | nil => simp [splitOnChar]
  | cons a as ih =>
    have ha : ¬(a = c) := fun e => h (e ▸ List.mem_cons_self a as)
    have h2 : c ∉ as := fun hm => h (List.mem_cons_of_mem _ hm)
    simp [splitOnChar, ha, ih h2]

/-- The dash separator never occurs in a four-digit print. -/
lemma dash_not_mem_pad4 (n : Nat) : ('-' : Char) ∉ pad4 n := by
  simp only [pad4, List.mem_cons, List.not_mem_nil, or_false]
  push_neg
  refine ⟨?_, ?_, ?_, ?_⟩ <;>
    exact (digitChar_ne_dash _ (Nat.mod_lt _ (by norm_num))).symm

/-- The dash separator never occurs in a two-digit print. -/
lemma dash_not_mem_pad2 (n : Nat) : ('-' : Char) ∉ pad2 n := by
  simp only [pad2, List.mem_cons, List.not_mem_nil, or_false]
  push_neg
  refine ⟨?_, ?_⟩ <;>
    exact (digitChar_ne_dash _ (Nat.mod_lt _ (by norm_num))).symm

/-- The ISO print splits at dashes into its three padded components. -/
lemma splitOnChar_isoChars (d : Date) :
    splitOnChar '-' (isoChars d) =
      [pad4 d.year, pad2 d.month, pad2 d.day] := by
  unfold isoChars
  rw [splitOnChar_append '-' (pad4 d.year) _ (dash_not_mem_pad4 _)]
  rw [splitOnChar_append '-' (pad2 d.month) _ (dash_not_mem_pad2 _)]
  rw [splitOnChar_no_sep '-' (pad2 d.day) (dash_not_mem_pad2 _)]

/-- No month is longer than 31 days. -/
lemma daysInMonth_le_31 (y m : Nat) : daysInMonth y m ≤ 31 := by
  unfold daysInMonth
  split <;> (try split) <;> omega

/-- The `%Y-%m-%d` format parses the ISO print of a valid date back to
that date. -/
lemma parseFmt_iso_ymd (d : Date) (h : validBounds d) :
    parseFmt ⟨'-', FOrder.ymd, true⟩ (isoChars d) = some d := by
  obtain ⟨h1, h2, h3, h4, h5, h6⟩ := h
  have hY := checkY4_pad4 d.year (by omega)
  have hM := checkM_pad2 d.month h3 h4
  have hD := checkD_pad2 d.day h5 (le_trans h6 (daysInMonth_le_31 d.year d.month))
  show parseParts FOrder.ymd true (splitOnChar '-' (isoChars d)) = some d
  rw [splitOnChar_isoChars]
  simp [parseParts, checkYear, hY, hM, hD, assemble, h1, h2, h6]

/-- The two `%m-%d-...` formats reject the ISO print (the four-digit year
cannot match a two-digit month directive). -/
lemma parseFmt_iso_mdy (d : Date) (b : Bool) :
    parseFmt ⟨'-', FOrder.mdy, b⟩ (isoChars d) = none := by
  have hm := checkM_pad4_none d.year
  show parseParts FOrder.mdy b (splitOnChar '-' (isoChars d)) = none
  rw [splitOnChar_isoChars]
  simp [parseParts, hm, assemble]

/-- A successful format scan means some format parsed the string. -/
lemma tryFmts_some_mem (fs : List Fmt) (l : List Char) (d : Date)
    (h : tryFmts fs l = some d) : ∃ f ∈ fs, parseFmt f l = some d := by
  induction fs with
  | nil => exact Option.noConfusion h
  | cons f fs ih =>
    unfold tryFmts at h
    cases hp : parseFmt f l with
    | some d2 =>
      rw [hp] at h
      injection h with h
      exact ⟨f, List.mem_cons_self _ _, by rw [hp, h]⟩
    | none =>
      rw [hp] at h
      obtain ⟨g, hg, hpg⟩ := ih h
      exact ⟨g, List.mem_cons_of_mem _ hg, hpg⟩

/-- The scan returns the result of the first format that parses. -/
lemma tryFmts_first (fs : List Fmt) (l : List Char) :
    ∀ (i : Nat) (f : Fmt) (d : Date), fs.get? i = some f →
      parseFmt f l = some d →
      (∀ j, j < i → ∀ g, fs.get? j = some g → parseFmt g l = none) →
      tryFmts fs l = some d := by
  induction fs with
  | nil =>
    intro i f d hg
    exact Option.noConfusion hg
  | cons f0 fs ih =>
    intro i f d hg hp hnone
    cases i with
    | zero =>
      rw [List.get?_cons_zero] at hg
      injection hg with hg
      subst hg
      unfold tryFmts
      rw [hp]
    | succ n =>
      have h0 : parseFmt f0 l = none :=
        hnone 0 (Nat.succ_pos n) f0 List.get?_cons_zero
      unfold tryFmts
      rw [h0]
      refine ih n f d (by simpa using hg) hp ?_
      intro j hj g hgj
      exact hnone (j + 1) (Nat.succ_lt_succ hj) g (by simpa using hgj)

/-- The full format list maps the ISO print of a valid date back to the
date (the first two formats fail, the third is `%Y-%m-%d`). -/
lemma tryFmts_iso (d : Date) (h : validBounds d) :
    tryFmts dateFormats (isoChars d) = some d := by
  have h0 := parseFmt_iso_mdy d false
  have h1 := parseFmt_iso_mdy d true
  have h2 := parseFmt_iso_ymd d h
  simp only [dateFormats, tryFmts, h0, h1, h2]

/-- The ISO print has no whitespace. -/
lemma mem_isoChars_not_space (d : Date) :
    ∀ c ∈ isoChars d, isPySpace c = false := by
  intro c hc
  simp only [isoChars, pad4, pad2, List.mem_append, List.mem_cons,
    List.not_mem_nil, or_false] at hc
  rcases hc with ((h | h | h | h) | h | (h | h) | h | (h | h)) <;> subst h <;>
    first
      | exact digitChar_not_space _ (Nat.mod_lt _ (by norm_num))
      | decide

/-- The ISO print is a nonempty character list. -/
lemma isoChars_ne_nil (d : Date) : isoChars d ≠ [] := by
  simp [isoChars, pad4]

/-- Stripping leaves the ISO string unchanged. -/
lemma pyStrip_iso (d : Date) : pyStrip (isoString d) = isoString d := by
  unfold pyStrip isoString
  have hd : (String.mk (isoChars d)).data = isoChars d := rfl
  rw [hd, stripChars_eq_self _ (mem_isoChars_not_space d)]

/-- The ISO string is not the empty string. -/
lemma iso_ne_empty (d : Date) : isoString d ≠ "" := by
  intro h
  exact isoChars_ne_nil d (congrArg String.data h)

/-- Validating the ISO print of a valid date succeeds with the same
string. -/
lemma validate_iso (d : Date) (h : validBounds d) :
    validateDate (Value.vstr (isoString d)) = Except.ok (isoString d) := by
  have ht : tryFmts dateFormats (isoString d).data = some d := tryFmts_iso d h
  unfold validateDate
  simp only [pyStr]
  rw [pyStrip_iso, if_neg (iso_ne_empty d), ht]

/-- C5: the date validator fails on missing/blank input with no default;
otherwise the stripped string is tried against the fixed ordered format
list, the first format that parses wins and the result is the date
normalized to ISO `YYYY-MM-DD` (in particular `"05-25-22"` normalizes to
`"2022-05-25"`); when no format matches it fails with a message that
includes the original (stripped) string. -/
theorem c5_date_validator :
    validateDate Value.vnull = Except.error "Date cannot be empty" ∧
    (∀ s : String, pyStrip s = "" →
      validateDate (Value.vstr s) = Except.error "Date cannot be empty") ∧
    (∀ s : String, pyStrip s ≠ "" →
      tryFmts dateFormats (pyStrip s).data = none →
      validateDate (Value.vstr s) =
        Except.error ("Invalid date format: \"" ++ pyStrip s
          ++ "\". Expected formats like MM-DD-YY (05-25-22)")) ∧
    (∀ (s : String) (i : Nat) (f : Fmt) (d : Date),
      pyStrip s ≠ "" →
      dateFormats.get? i = some f →
      parseFmt f (pyStrip s).data = some d →
      (∀ j, j < i → ∀ g, dateFormats.get? j = some g →
        parseFmt g (pyStrip s).data = none) →
      validateDate (Value.vstr s) = Except.ok (isoString d)) ∧
    validateDate (Value.vstr "05-25-22") = Except.ok "2022-05-25" := by
  refine ⟨rfl, ?_, ?_, ?_, by decide⟩
  · intro s h
    unfold validateDate
    simp only [pyStr]
    rw [if_pos h]
  · intro s h1 h2
    unfold validateDate
    simp only [pyStr]
    rw [if_neg h1, h2]
  · intro s i f d h1 hg hp hnone
    have ht := tryFmts_first dateFormats (pyStrip s).data i f d hg hp hnone
    unfold validateDate
    simp only [pyStr]
    rw [if_neg h1, ht]

/-- C5 witness: Scenario A normalizes and Scenario E fails naming the
unparseable string. -/
theorem c5_date_validator_witness :
    validateDate (Value.vstr "05-25-22") = Except.ok "2022-05-25" ∧
    validateDate (Value.vstr "2022/13/45") =
      Except.error
        "Invalid date format: \"2022/13/45\". Expected formats like MM-DD-YY (05-25-22)" := by
  constructor
  · have h := c5_date_validator.2.2.2.1 "05-25-22" 0 ⟨'-', FOrder.mdy, false⟩
      ⟨2022, 5, 25⟩ (by decide) rfl (by decide)
      (fun j hj g hg => absurd hj (Nat.not_lt_zero j))
    rw [h]
    decide
  · have hst : pyStrip "2022/13/45" = "2022/13/45" := by decide
    have h := c5_date_validator.2.2.1 "2022/13/45" (by decide) (by decide)
    rw [h, hst]
    decide

/-- C10: the date validator is idempotent on its own output: whenever it
accepts a string and returns the ISO normalization, validating that
returned string succeeds and returns it unchanged (`%Y-%m-%d` is among
the accepted formats, and no earlier format can match a four-digit
year). -/
theorem c10_date_idempotent (s out : String)
    (h : validateDate (Value.vstr s) = Except.ok out) :
    validateDate (Value.vstr out) = Except.ok out := by
  unfold validateDate at h
  simp only [pyStr] at h
  by_cases hb : pyStrip s = ""
  · rw [if_pos hb] at h
    exact Except.noConfusion h
  · rw [if_neg hb] at h
    cases ht : tryFmts dateFormats (pyStrip s).data with
    | none =>
      rw [ht] at h
      exact Except.noConfusion h
    | some d =>
      rw [ht] at h
      injection h with h
      subst h
      obtain ⟨f, hf, hpf⟩ := tryFmts_some_mem _ _ _ ht
      exact validate_iso d (parseFmt_bounds f _ d hpf)

/-- C10 witness: the normalization of `"05-25-22"` revalidates to
itself. -/
theorem c10_date_idempotent_witness :
    validateDate (Value.vstr "2022-05-25") = Except.ok "2022-05-25" :=
  c10_date_idempotent "05-25-22" "2022-05-25" (by decide)

end DQPipeline
